import Mathlib

/-!
Verification development for the plate-layout logic of the pymicrotools
repository.

The repository converts CZI microscopy containers into the OME-ZARR
"High Content Screening" layout.  Its only original logic is

* `extract_well_coordinates` (src/scripts/hcs_zarr_utils.py, lines 74-111,
  duplicated verbatim in src/scripts/write_hcs_omezarr.py, lines 13-50):
  parsing well-position tokens such as `"B4"` into row/column labels and
  emitting all `"row/col"` well paths;

* the standard microplate geometry enumeration
  (`PlateConfiguration`, `PlateType`, `PLATE_FORMATS`, `define_plate`,
  `define_plate_by_well_count` in src/scripts/hcs_zarr_utils.py,
  lines 114-222, duplicated verbatim in src/scripts/ngff_define_plate.py);

* `get_display` (src/scripts/write_omezarr_adv.py, lines 15-36): reading
  per-channel display limits with an ad-hoc IndexError fallback.

Modelling conventions used by the shallow embedding below:

* Python strings are Lean `String`s; `str.isalpha` / `str.isdigit` are
  modelled by the ASCII classifiers `Char.isAlpha` / `Char.isDigit`
  (the source only ever meets ASCII well tokens such as `"B4"`).
* A Python dict is modelled as an association list of its keys in
  insertion order; only the keys are ever used.
* `sorted(list(set(xs)))` produces the sorted list of the distinct
  elements of `xs`; it is modelled by `List.dedup` followed by
  `List.insertionSort` with the lexicographic code-point order that
  Python uses to compare `str` values.  On a duplicate-free list every
  comparison sort agrees, so the model is exact.
* Python `int` is modelled by `Int`; `enumerate` indices by `Nat`.
* `numpy` float arithmetic in `get_display` is modelled over `ℚ`, with
  `np.round(x, 0)` modelled as round-half-to-even.
* A Python function that can raise is modelled in `Except String`.
-/

namespace PyMicroTools

/-- Row part of a well token: `"".join(filter(str.isalpha, well))` from
`extract_well_coordinates` (src/scripts/hcs_zarr_utils.py, line 97). -/
def rowOf (well : String) : String :=
  String.mk (well.data.filter Char.isAlpha)

/-- Column part of a well token: `"".join(filter(str.isdigit, well))` from
`extract_well_coordinates` (src/scripts/hcs_zarr_utils.py, line 98). -/
def colOf (well : String) : String :=
  String.mk (well.data.filter Char.isDigit)

/-- Lexicographic code-point comparison of Python `str` values, stated on
the underlying character lists so that it is kernel-computable. -/
def pyStrLe (a b : String) : Prop :=
  a.data ≤ b.data

instance : DecidableRel pyStrLe :=
  fun a b => (inferInstance : Decidable (a.data ≤ b.data))

instance : IsTrans String pyStrLe :=
  ⟨fun _ _ _ h₁ h₂ => le_trans h₁ h₂⟩

instance : IsTotal String pyStrLe :=
  ⟨fun a b => le_total a.data b.data⟩

/-- Python `sorted` on a list of strings (a stable comparison sort with
respect to the lexicographic code-point order). -/
def pySorted (l : List String) : List String :=
  l.insertionSort pyStrLe

/-- `extract_well_coordinates` from src/scripts/hcs_zarr_utils.py,
lines 74-111 (identical copy in src/scripts/write_hcs_omezarr.py,
lines 13-50).  The `well_counter` dict is an association list of keys
with their (unused) counts; the Python `set`s of rows and columns
followed by `sorted(list(...))` are modelled by `dedup` + `pySorted`. -/
def extract_well_coordinates (well_counter : List (String × Nat)) :
    List String × List String × List String :=
  let row_names := pySorted ((well_counter.map (fun p => rowOf p.1)).dedup)
  let col_names := pySorted ((well_counter.map (fun p => colOf p.1)).dedup)
  let well_paths := row_names.flatMap (fun row => col_names.map (fun col => row ++ "/" ++ col))
  (row_names, col_names, well_paths)

/-- `PlateConfiguration` dataclass from src/scripts/hcs_zarr_utils.py,
lines 114-133. -/
structure PlateConfiguration where
  rows : Nat
  columns : Nat
  name : String
deriving DecidableEq

/-- `PlateConfiguration.total_wells` (src/scripts/hcs_zarr_utils.py,
lines 121-123): `self.rows * self.columns`. -/
def PlateConfiguration.total_wells (c : PlateConfiguration) : Nat :=
  c.rows * c.columns

/-- `PlateConfiguration.row_labels` (src/scripts/hcs_zarr_utils.py,
lines 125-128): `[chr(ord("A") + i) for i in range(self.rows)]`. -/
def PlateConfiguration.row_labels (c : PlateConfiguration) : List String :=
  (List.range c.rows).map (fun i => String.singleton (Char.ofNat (65 + i)))

/-- `PlateConfiguration.column_labels` (src/scripts/hcs_zarr_utils.py,
lines 130-133): `[str(i) for i in range(1, self.columns + 1)]`. -/
def PlateConfiguration.column_labels (c : PlateConfiguration) : List String :=
  (List.range' 1 c.columns).map (fun i => toString i)

/-- `PlateType` enum from src/scripts/hcs_zarr_utils.py, lines 136-145. -/
inductive PlateType where
  | PLATE_6
  | PLATE_24
  | PLATE_48
  | PLATE_96
  | PLATE_384
  | PLATE_1536
deriving DecidableEq

/-- Configuration value carried by each `PlateType` member
(src/scripts/hcs_zarr_utils.py, lines 139-145). -/
def PlateType.value : PlateType → PlateConfiguration
  | .PLATE_6 => ⟨2, 3, "6-Well Plate"⟩
  | .PLATE_24 => ⟨4, 6, "24-Well Plate"⟩
  | .PLATE_48 => ⟨6, 8, "48-Well Plate"⟩
  | .PLATE_96 => ⟨8, 12, "96-Well Plate"⟩
  | .PLATE_384 => ⟨16, 24, "384-Well Plate"⟩
  | .PLATE_1536 => ⟨32, 48, "1536-Well Plate"⟩

/-- `PLATE_FORMATS` lookup dict from src/scripts/hcs_zarr_utils.py,
lines 148-155, as a partial map on Python ints. -/
def PLATE_FORMATS (well_count : Int) : Option PlateConfiguration :=
  if well_count = 6 then some PlateType.PLATE_6.value
  else if well_count = 24 then some PlateType.PLATE_24.value
  else if well_count = 48 then some PlateType.PLATE_48.value
  else if well_count = 96 then some PlateType.PLATE_96.value
  else if well_count = 384 then some PlateType.PLATE_384.value
  else if well_count = 1536 then some PlateType.PLATE_1536.value
  else none

/-- Key list of `PLATE_FORMATS` in insertion order
(`list(PLATE_FORMATS.keys())`). -/
def PLATE_FORMATS_keys : List Int :=
  [6, 24, 48, 96, 384, 1536]

/-- `PlateColumn` metadata object from `ngff_zarr.v04.zarr_metadata`, as
used by the scripts: a named column. -/
structure PlateColumn where
  name : String
deriving DecidableEq

/-- `PlateRow` metadata object: a named row. -/
structure PlateRow where
  name : String
deriving DecidableEq

/-- `PlateWell` metadata object: a path plus row and column indices. -/
structure PlateWell where
  path : String
  rowIndex : Nat
  columnIndex : Nat
deriving DecidableEq

/-- `Plate` metadata object assembled by the scripts. -/
structure Plate where
  name : String
  columns : List PlateColumn
  rows : List PlateRow
  wells : List PlateWell
  field_count : Int
deriving DecidableEq

/-- `define_plate` from src/scripts/hcs_zarr_utils.py, lines 158-185
(identical copy in src/scripts/ngff_define_plate.py, lines 52-79). -/
def define_plate (plate_type : PlateType) (field_count : Int) : Plate :=
  let config := plate_type.value
  let columns := config.column_labels.map (fun label => PlateColumn.mk label)
  let rows := config.row_labels.map (fun label => PlateRow.mk label)
  let wells := rows.enum.flatMap (fun rp =>
    columns.enum.map (fun cp =>
      PlateWell.mk (rp.2.name ++ "/" ++ cp.2.name) rp.1 cp.1))
  Plate.mk config.name columns rows wells field_count

/-- `define_plate_by_well_count` from src/scripts/hcs_zarr_utils.py,
lines 188-222 (identical copy in src/scripts/ngff_define_plate.py,
lines 82-116).  The `ValueError` branch becomes `Except.error` carrying
the interpolated message. -/
def define_plate_by_well_count (well_count : Int) (field_count : Int) :
    Except String Plate :=
  match PLATE_FORMATS well_count with
  | none =>
      Except.error ("Unsupported well count: " ++ toString well_count ++
        ". Available formats: [6, 24, 48, 96, 384, 1536]")
  | some config =>
      let columns := config.column_labels.map (fun label => PlateColumn.mk label)
      let rows := config.row_labels.map (fun label => PlateRow.mk label)
      let wells := rows.enum.flatMap (fun rp =>
        columns.enum.map (fun cp =>
          PlateWell.mk (rp.2.name ++ "/" ++ cp.2.name) rp.1 cp.1))
      Except.ok (Plate.mk config.name columns rows wells field_count)

/-- Channel information sub-object of the CZI metadata used by
`get_display`: `metadata.channelinfo.clims` is a list of per-channel
`(lower, higher)` display fractions. -/
structure CziChannelInfo where
  clims : List (ℚ × ℚ)

/-- Slice of the czitools `CziMetadata` object that `get_display` reads:
`channelinfo.clims`, `maxvalue_list` and `maxvalue`.  The source accesses
`maxvalue_list` in the `try` block but the distinct attribute `maxvalue`
in the `except` block, so both are modelled as separate fields. -/
structure CziMetadata where
  channelinfo : CziChannelInfo
  maxvalue_list : List ℚ
  maxvalue : List ℚ

/-- `np.round(x, 0)`: round to the nearest integer, ties to the even
integer, modelled over `ℚ`. -/
def npRound (x : ℚ) : ℚ :=
  let f : Int := ⌊x⌋
  let r : ℚ := x - (f : ℚ)
  if r < 1/2 then (f : ℚ)
  else if (1/2 : ℚ) < r then ((f + 1 : Int) : ℚ)
  else if f % 2 = 0 then (f : ℚ) else ((f + 1 : Int) : ℚ)

/-- `get_display` from src/scripts/write_omezarr_adv.py, lines 15-36.
The `try` block succeeds exactly when `channel_index` is in range for
both `channelinfo.clims` and `maxvalue_list`; the `except IndexError`
branch reads `metadata.maxvalue[channel_index]`, and an IndexError raised
by that read happens outside the `try` block and therefore escapes. -/
def get_display (metadata : CziMetadata) (channel_index : Nat) :
    Except String (ℚ × ℚ × ℚ) :=
  match metadata.channelinfo.clims[channel_index]?,
        metadata.maxvalue_list[channel_index]? with
  | some cl, some mv =>
      Except.ok (npRound (cl.1 * mv), npRound (cl.2 * mv), mv)
  | some _, none =>
      match metadata.maxvalue[channel_index]? with
      | some mv => Except.ok (0, mv, mv)
      | none => Except.error "IndexError"
  | none, _ =>
      match metadata.maxvalue[channel_index]? with
      | some mv => Except.ok (0, mv, mv)
      | none => Except.error "IndexError"

/-! Helper lemmas shared by the claim theorems. -/

theorem isDigit_isAlpha_false {c : Char} (h : c.isDigit = true) :
    c.isAlpha = false := by
  have e48 : ((48 : UInt32).toBitVec).toNat = 48 := rfl
  have e57 : ((57 : UInt32).toBitVec).toNat = 57 := rfl
  have e65 : ((65 : UInt32).toBitVec).toNat = 65 := rfl
  have e90 : ((90 : UInt32).toBitVec).toNat = 90 := rfl
  have e97 : ((97 : UInt32).toBitVec).toNat = 97 := rfl
  have e122 : ((122 : UInt32).toBitVec).toNat = 122 := rfl
  simp only [Char.isDigit, Char.isAlpha, Char.isUpper, Char.isLower,
    Bool.and_eq_true, Bool.or_eq_false_iff, Bool.and_eq_false_iff,
    decide_eq_true_eq, decide_eq_false_iff_not, not_le, ge_iff_le,
    UInt32.le_def, UInt32.lt_def, BitVec.le_def, BitVec.lt_def,
    e48, e57, e65, e90, e97, e122] at h ⊢
  omega

theorem isAlpha_isDigit_false {c : Char} (h : c.isAlpha = true) :
    c.isDigit = false := by
  have e48 : ((48 : UInt32).toBitVec).toNat = 48 := rfl
  have e57 : ((57 : UInt32).toBitVec).toNat = 57 := rfl
  have e65 : ((65 : UInt32).toBitVec).toNat = 65 := rfl
  have e90 : ((90 : UInt32).toBitVec).toNat = 90 := rfl
  have e97 : ((97 : UInt32).toBitVec).toNat = 97 := rfl
  have e122 : ((122 : UInt32).toBitVec).toNat = 122 := rfl
  simp only [Char.isDigit, Char.isAlpha, Char.isUpper, Char.isLower,
    Bool.or_eq_true, Bool.and_eq_true, Bool.and_eq_false_iff,
    decide_eq_true_eq, decide_eq_false_iff_not, not_le, ge_iff_le,
    UInt32.le_def, UInt32.lt_def, BitVec.le_def, BitVec.lt_def,
    e48, e57, e65, e90, e97, e122] at h ⊢
  omega

theorem pyStrLe_iff_le {a b : String} : pyStrLe a b ↔ a ≤ b :=
  Iff.symm String.le_iff_toList_le

theorem rowOf_eq_empty {s : String} (h : ∀ c ∈ s.data, c.isAlpha = false) :
    rowOf s = "" := by
  unfold rowOf
  rw [List.filter_eq_nil_iff.mpr (fun c hc => by simp [h c hc])]

theorem colOf_eq_empty {s : String} (h : ∀ c ∈ s.data, c.isDigit = false) :
    colOf s = "" := by
  unfold colOf
  rw [List.filter_eq_nil_iff.mpr (fun c hc => by simp [h c hc])]

theorem isInfix_append_left {α : Type _} {s l : List α} (pre : List α)
    (h : s <:+: l) : s <:+: pre ++ l := by
  obtain ⟨a, b, rfl⟩ := h
  exact ⟨pre ++ a, b, by simp⟩

theorem wells_map_pairs (rows : List PlateRow) (cols : List PlateColumn) :
    ((rows.enum.flatMap (fun rp => cols.enum.map (fun cp =>
      PlateWell.mk (rp.2.name ++ "/" ++ cp.2.name) rp.1 cp.1))).map
      (fun w => (w.rowIndex, w.columnIndex))) =
    (List.range rows.length) ×ˢ (List.range cols.length) := by
  rw [List.map_flatMap]
  have h1 : (fun (rp : Nat × PlateRow) =>
      List.map (fun w => (w.rowIndex, w.columnIndex))
        (cols.enum.map (fun cp =>
          PlateWell.mk (rp.2.name ++ "/" ++ cp.2.name) rp.1 cp.1))) =
      fun rp : Nat × PlateRow => (List.range cols.length).map (fun j => (rp.1, j)) := by
    funext rp
    rw [List.map_map,
      show ((fun w : PlateWell => (w.rowIndex, w.columnIndex)) ∘
          (fun cp : Nat × PlateColumn =>
            PlateWell.mk (rp.2.name ++ "/" ++ cp.2.name) rp.1 cp.1)) =
        (fun j => (rp.1, j)) ∘ Prod.fst from rfl,
      ← List.map_map, List.enum_map_fst]
  rw [h1,
    ← List.flatMap_map Prod.fst
      (fun i : Nat => (List.range cols.length).map (fun j => (i, j))) rows.enum,
    List.enum_map_fst]
  rfl

theorem wells_length (rows : List PlateRow) (cols : List PlateColumn) :
    (rows.enum.flatMap (fun rp => cols.enum.map (fun cp =>
      PlateWell.mk (rp.2.name ++ "/" ++ cp.2.name) rp.1 cp.1))).length =
    rows.length * cols.length := by
  have h := congrArg List.length (wells_map_pairs rows cols)
  rwa [List.length_map, List.length_product, List.length_range,
    List.length_range] at h

theorem wells_pairs_nodup (rows : List PlateRow) (cols : List PlateColumn) :
    ((rows.enum.flatMap (fun rp => cols.enum.map (fun cp =>
      PlateWell.mk (rp.2.name ++ "/" ++ cp.2.name) rp.1 cp.1))).map
      (fun w => (w.rowIndex, w.columnIndex))).Nodup := by
  rw [wells_map_pairs]
  exact List.Nodup.product (List.nodup_range _) (List.nodup_range _)

theorem define_plate_by_well_count_ok (wc : Int) (cfg : PlateConfiguration)
    (fc : Int) (h : PLATE_FORMATS wc = some cfg) :
    ∃ p : Plate, define_plate_by_well_count wc fc = Except.ok p ∧
      p.rows.length = cfg.rows ∧ p.columns.length = cfg.columns ∧
      p.wells.length = cfg.rows * cfg.columns ∧
      (p.wells.map (fun w => (w.rowIndex, w.columnIndex))).Nodup := by
  refine ⟨Plate.mk cfg.name (cfg.column_labels.map (fun label => PlateColumn.mk label))
      (cfg.row_labels.map (fun label => PlateRow.mk label))
      ((cfg.row_labels.map (fun label => PlateRow.mk label)).enum.flatMap (fun rp =>
        (cfg.column_labels.map (fun label => PlateColumn.mk label)).enum.map (fun cp =>
          PlateWell.mk (rp.2.name ++ "/" ++ cp.2.name) rp.1 cp.1)))
      fc, ?_, ?_, ?_, ?_, ?_⟩
  · unfold define_plate_by_well_count
    rw [h]
  · simp [PlateConfiguration.row_labels]
  · simp [PlateConfiguration.column_labels]
  · rw [wells_length]
    simp [PlateConfiguration.row_labels, PlateConfiguration.column_labels]
  · exact wells_pairs_nodup _ _

theorem plate_case_spec (wc : Int) (cfg : PlateConfiguration) (fc : Int)
    (h : PLATE_FORMATS wc = some cfg)
    (hwc : ((cfg.rows * cfg.columns : Nat) : Int) = wc) :
    ∃ p : Plate, define_plate_by_well_count wc fc = Except.ok p ∧
      p.wells.length = p.rows.length * p.columns.length ∧
      (p.wells.length : Int) = wc ∧
      (p.wells.map (fun w => (w.rowIndex, w.columnIndex))).Nodup := by
  obtain ⟨p, hp, hr, hc, hw, hn⟩ := define_plate_by_well_count_ok wc cfg fc h
  exact ⟨p, hp, by rw [hw, hr, hc], by rw [hw]; exact hwc, hn⟩

theorem dpbwc_ok_exists (wc : Int) (cfg : PlateConfiguration) (fc : Int)
    (h : PLATE_FORMATS wc = some cfg) :
    ∃ p : Plate, define_plate_by_well_count wc fc = Except.ok p := by
  obtain ⟨p, hp, -, -, -, -⟩ := define_plate_by_well_count_ok wc cfg fc h
  exact ⟨p, hp⟩

/-! Claim theorems. -/

/-- C1: for every well token consisting of a run of letters followed by a
run of digits, `extract_well_coordinates` recovers exactly the letter run
as the row label and the digit run as the column label; on the input
`{"B4": 4, "B5": 4}` it returns rows `["B"]`, columns `["4", "5"]` and
well paths `["B/4", "B/5"]`. -/
theorem C1_extract_recovers_letter_and_digit_runs :
    (∀ a d : String, (∀ c ∈ a.data, c.isAlpha = true) →
      (∀ c ∈ d.data, c.isDigit = true) →
      rowOf (a ++ d) = a ∧ colOf (a ++ d) = d) ∧
    extract_well_coordinates [("B4", 4), ("B5", 4)] =
      (["B"], ["4", "5"], ["B/4", "B/5"]) := by
  constructor
  · intro a d ha hd
    constructor
    · unfold rowOf
      rw [String.data_append, List.filter_append,
        List.filter_eq_self.mpr ha,
        List.filter_eq_nil_iff.mpr
          (fun c hc => by simp [isDigit_isAlpha_false (hd c hc)]),
        List.append_nil]
    · unfold colOf
      rw [String.data_append, List.filter_append,
        List.filter_eq_nil_iff.mpr
          (fun c hc => by simp [isAlpha_isDigit_false (ha c hc)]),
        List.filter_eq_self.mpr hd,
        List.nil_append]
  · decide

/-- Witness for C1 at the concrete token `"B" ++ "4"`. -/
theorem C1_extract_recovers_letter_and_digit_runs_witness :
    rowOf ("B" ++ "4") = "B" ∧ colOf ("B" ++ "4") = "4" :=
  C1_extract_recovers_letter_and_digit_runs.1 "B" "4" (by decide) (by decide)

/-- C4: the row and column label lists produced by
`extract_well_coordinates` are duplicate-free and sorted by the
lexicographic string order; in particular the digit strings are ordered
lexicographically, not numerically, so the input `{"A10": 1, "A2": 1}`
yields column labels `["10", "2"]` with `"10"` before `"2"`. -/
theorem C4_extract_sorts_lexicographically :
    (∀ wc : List (String × Nat),
      ((extract_well_coordinates wc).1.Sorted (· ≤ ·) ∧
       (extract_well_coordinates wc).1.Nodup) ∧
      ((extract_well_coordinates wc).2.1.Sorted (· ≤ ·) ∧
       (extract_well_coordinates wc).2.1.Nodup)) ∧
    (extract_well_coordinates [("A10", 1), ("A2", 1)]).2.1 = ["10", "2"] := by
  constructor
  · intro wc
    simp only [extract_well_coordinates, pySorted]
    refine ⟨⟨?_, ?_⟩, ?_, ?_⟩
    · exact List.Pairwise.imp (fun h => pyStrLe_iff_le.mp h)
        (List.sorted_insertionSort pyStrLe _)
    · exact ((List.perm_insertionSort pyStrLe _).symm).nodup
        (List.nodup_dedup _)
    · exact List.Pairwise.imp (fun h => pyStrLe_iff_le.mp h)
        (List.sorted_insertionSort pyStrLe _)
    · exact ((List.perm_insertionSort pyStrLe _).symm).nodup
        (List.nodup_dedup _)
  · decide

/-- C5: the well paths returned by `extract_well_coordinates` are exactly
the cartesian product of the returned row and column label lists, each
formatted as `"row/col"`, so their number is the product of the two
lengths, regardless of which combinations actually occurred. -/
theorem C5_well_paths_cartesian_product (wc : List (String × Nat)) :
    (extract_well_coordinates wc).2.2 =
      (extract_well_coordinates wc).1.flatMap (fun row =>
        (extract_well_coordinates wc).2.1.map (fun col => row ++ "/" ++ col)) ∧
    (extract_well_coordinates wc).2.2.length =
      (extract_well_coordinates wc).1.length *
        (extract_well_coordinates wc).2.1.length := by
  constructor
  · rfl
  · simp only [extract_well_coordinates]
    rw [List.length_flatMap]
    simp [Function.comp_def, List.map_const', List.sum_replicate]

/-- C7: `extract_well_coordinates` is total, and a token with no
alphabetic character contributes the empty string as its row label while
a token with no digit character contributes the empty string as its
column label; in particular such a key puts `""` among the row names. -/
theorem C7_no_error_path_empty_labels :
    (∀ s : String, (∀ c ∈ s.data, c.isAlpha = false) → rowOf s = "") ∧
    (∀ s : String, (∀ c ∈ s.data, c.isDigit = false) → colOf s = "") ∧
    (∀ (wc : List (String × Nat)) (p : String × Nat), p ∈ wc →
      (∀ c ∈ p.1.data, c.isAlpha = false) →
      "" ∈ (extract_well_coordinates wc).1) := by
  refine ⟨fun s h => rowOf_eq_empty h, fun s h => colOf_eq_empty h, ?_⟩
  intro wc p hp h
  simp only [extract_well_coordinates, pySorted]
  rw [List.mem_insertionSort, List.mem_dedup, List.mem_map]
  exact ⟨p, hp, rowOf_eq_empty h⟩

/-- Witness for C7 at the all-digit token `"123"` and the all-letter
token `"ABC"`. -/
theorem C7_no_error_path_empty_labels_witness :
    rowOf "123" = "" ∧ colOf "ABC" = "" ∧
    "" ∈ (extract_well_coordinates [("123", 1)]).1 :=
  ⟨C7_no_error_path_empty_labels.1 "123" (by decide),
   C7_no_error_path_empty_labels.2.1 "ABC" (by decide),
   C7_no_error_path_empty_labels.2.2 [("123", 1)] ("123", 1)
     (by decide) (by decide)⟩

/-- C8 counterexample: the row label is not invariant under permuting the
characters of a token.  The tokens `"AB1"` and `"BA1"` are character
permutations of each other, yet they produce the different row labels
`"AB"` and `"BA"`. -/
theorem C8_row_label_depends_on_order_cex :
    ("BA1".data).Perm ("AB1".data) ∧
    (extract_well_coordinates [("AB1", 1)]).1 = ["AB"] ∧
    (extract_well_coordinates [("BA1", 1)]).1 = ["BA"] ∧
    (extract_well_coordinates [("AB1", 1)]).1 ≠
      (extract_well_coordinates [("BA1", 1)]).1 := by
  decide

/-- C8 as amended: the row label of a token is the concatenation, in
token order, of its alphabetic characters, and the column label the
concatenation of its digit characters; permuting the characters of the
token permutes the characters of each label (the labels are preserved as
multisets of characters, though not as strings). -/
theorem C8_labels_by_character_class_up_to_order (s t : String)
    (h : (s.data).Perm (t.data)) :
    (rowOf s).data = s.data.filter Char.isAlpha ∧
    (colOf s).data = s.data.filter Char.isDigit ∧
    ((rowOf s).data).Perm ((rowOf t).data) ∧
    ((colOf s).data).Perm ((colOf t).data) :=
  ⟨rfl, rfl, h.filter _, h.filter _⟩

/-- Witness for the amended C8 at the tokens `"AB1"` and `"BA1"`. -/
theorem C8_labels_by_character_class_up_to_order_witness :
    (rowOf "AB1").data = "AB1".data.filter Char.isAlpha ∧
    (colOf "AB1").data = "AB1".data.filter Char.isDigit ∧
    ((rowOf "AB1").data).Perm ((rowOf "BA1").data) ∧
    ((colOf "AB1").data).Perm ((colOf "BA1").data) :=
  C8_labels_by_character_class_up_to_order "AB1" "BA1" (by decide)

/-- C2: for every supported well count and every field count,
`define_plate_by_well_count` succeeds with a plate whose well list has
exactly rows times columns entries, which equals the requested well
count, and whose row/column index pairs are pairwise distinct. -/
theorem C2_plate_well_grid (wc : Int) (fc : Int)
    (h : wc ∈ PLATE_FORMATS_keys) :
    ∃ p : Plate, define_plate_by_well_count wc fc = Except.ok p ∧
      p.wells.length = p.rows.length * p.columns.length ∧
      (p.wells.length : Int) = wc ∧
      (p.wells.map (fun w => (w.rowIndex, w.columnIndex))).Nodup := by
  have hkeys : wc = 6 ∨ wc = 24 ∨ wc = 48 ∨ wc = 96 ∨ wc = 384 ∨ wc = 1536 := by
    simpa [PLATE_FORMATS_keys] using h
  rcases hkeys with rfl | rfl | rfl | rfl | rfl | rfl
  · exact plate_case_spec 6 PlateType.PLATE_6.value fc rfl rfl
  · exact plate_case_spec 24 PlateType.PLATE_24.value fc rfl rfl
  · exact plate_case_spec 48 PlateType.PLATE_48.value fc rfl rfl
  · exact plate_case_spec 96 PlateType.PLATE_96.value fc rfl rfl
  · exact plate_case_spec 384 PlateType.PLATE_384.value fc rfl rfl
  · exact plate_case_spec 1536 PlateType.PLATE_1536.value fc rfl rfl

/-- Witness for C2 at the 96-well plate with two fields per well. -/
theorem C2_plate_well_grid_witness :
    (96 : Int) ∈ PLATE_FORMATS_keys ∧
    ∃ p : Plate, define_plate_by_well_count 96 2 = Except.ok p ∧
      p.wells.length = p.rows.length * p.columns.length ∧
      (p.wells.length : Int) = 96 ∧
      (p.wells.map (fun w => (w.rowIndex, w.columnIndex))).Nodup :=
  ⟨by decide, C2_plate_well_grid 96 2 (by decide)⟩

/-- C3: for every well count outside the six standard values,
`define_plate_by_well_count` fails with the invalid-argument message
`"Unsupported well count: ... Available formats: [6, 24, 48, 96, 384, 1536]"`,
whose text contains every supported count; for a supported count it
succeeds. -/
theorem C3_unsupported_well_count_error (wc : Int) (fc : Int) :
    (wc ∉ PLATE_FORMATS_keys →
      define_plate_by_well_count wc fc = Except.error
        ("Unsupported well count: " ++ toString wc ++
          ". Available formats: [6, 24, 48, 96, 384, 1536]") ∧
      ∀ n ∈ PLATE_FORMATS_keys, (toString n).data <:+:
        ("Unsupported well count: " ++ toString wc ++
          ". Available formats: [6, 24, 48, 96, 384, 1536]").data) ∧
    (wc ∈ PLATE_FORMATS_keys →
      ∃ p : Plate, define_plate_by_well_count wc fc = Except.ok p) := by
  constructor
  · intro h
    have hk : ¬(wc = 6 ∨ wc = 24 ∨ wc = 48 ∨ wc = 96 ∨ wc = 384 ∨ wc = 1536) := by
      simpa [PLATE_FORMATS_keys] using h
    push_neg at hk
    obtain ⟨h1, h2, h3, h4, h5, h6⟩ := hk
    constructor
    · unfold define_plate_by_well_count PLATE_FORMATS
      rw [if_neg h1, if_neg h2, if_neg h3, if_neg h4, if_neg h5, if_neg h6]
    · intro n hn
      have base : (toString n).data <:+:
          (". Available formats: [6, 24, 48, 96, 384, 1536]" : String).data := by
        fin_cases hn <;> decide
      rw [String.data_append]
      exact isInfix_append_left _ base
  · intro h
    have hkeys : wc = 6 ∨ wc = 24 ∨ wc = 48 ∨ wc = 96 ∨ wc = 384 ∨ wc = 1536 := by
      simpa [PLATE_FORMATS_keys] using h
    rcases hkeys with rfl | rfl | rfl | rfl | rfl | rfl
    · exact dpbwc_ok_exists 6 PlateType.PLATE_6.value fc rfl
    · exact dpbwc_ok_exists 24 PlateType.PLATE_24.value fc rfl
    · exact dpbwc_ok_exists 48 PlateType.PLATE_48.value fc rfl
    · exact dpbwc_ok_exists 96 PlateType.PLATE_96.value fc rfl
    · exact dpbwc_ok_exists 384 PlateType.PLATE_384.value fc rfl
    · exact dpbwc_ok_exists 1536 PlateType.PLATE_1536.value fc rfl

/-- Witness for C3 at the unsupported count 7 and the supported count 6. -/
theorem C3_unsupported_well_count_error_witness :
    (define_plate_by_well_count 7 1 = Except.error
        ("Unsupported well count: " ++ toString (7 : Int) ++
          ". Available formats: [6, 24, 48, 96, 384, 1536]") ∧
      ∀ n ∈ PLATE_FORMATS_keys, (toString n).data <:+:
        ("Unsupported well count: " ++ toString (7 : Int) ++
          ". Available formats: [6, 24, 48, 96, 384, 1536]").data) ∧
    (∃ p : Plate, define_plate_by_well_count 6 1 = Except.ok p) :=
  ⟨(C3_unsupported_well_count_error 7 1).1 (by decide),
   (C3_unsupported_well_count_error 6 1).2 (by decide)⟩

/-- C6 counterexample: the row labels of the standard configurations are
not always letters.  The 1536-well plate has 32 rows, and its row at
index 26 is labelled `"["` (the ASCII character after `"Z"`), which is
not alphabetic. -/
theorem C6_nonletter_row_label_cex :
    "[" ∈ PlateType.PLATE_1536.value.row_labels ∧
    ("[".data.all Char.isAlpha) = false := by
  decide

/-- C6 as amended: `define_plate_by_well_count 96` yields 8 rows labelled
`"A"`-`"H"`, 12 columns labelled `"1"`-`"12"` and 96 wells; in general,
row labels are consecutive characters starting at `"A"` (alphabetic
letters whenever the configuration has at most 26 rows, which holds for
every standard plate except the 1536-well one) and column labels are the
consecutive integer strings starting at `"1"`. -/
theorem C6_standard_plate_labels (pt : PlateType) :
    (∃ p : Plate, define_plate_by_well_count 96 1 = Except.ok p ∧
      p.rows.map PlateRow.name = ["A", "B", "C", "D", "E", "F", "G", "H"] ∧
      p.columns.map PlateColumn.name =
        ["1", "2", "3", "4", "5", "6", "7", "8", "9", "10", "11", "12"] ∧
      p.wells.length = 96) ∧
    pt.value.row_labels =
      (List.range pt.value.rows).map (fun i => String.singleton (Char.ofNat (65 + i))) ∧
    pt.value.column_labels =
      (List.range' 1 pt.value.columns).map (fun i => toString i) ∧
    (pt.value.rows ≤ 26 →
      ∀ l ∈ pt.value.row_labels, (l.data.all Char.isAlpha) = true) := by
  cases pt <;>
    exact ⟨⟨_, rfl, by decide, by decide, by decide⟩, rfl, rfl, by decide⟩

/-- Witness for the amended C6 at the 96-well plate and the label `"A"`. -/
theorem C6_standard_plate_labels_witness :
    ("A".data.all Char.isAlpha) = true :=
  (C6_standard_plate_labels PlateType.PLATE_96).2.2.2 (by decide) "A" (by decide)

/-- C10: for every standard plate type and every field count, the plate
built by `define_plate` from the enum member equals the plate built by
`define_plate_by_well_count` from its total well count. -/
theorem C10_define_plate_paths_agree (pt : PlateType) (fc : Int) :
    define_plate_by_well_count (pt.value.total_wells : Int) fc =
      Except.ok (define_plate pt fc) := by
  cases pt <;> rfl

/-- C9 counterexample: `get_display` does propagate an index error.  With
empty metadata lists, reading channel 0 fails inside the `try` block, and
the fallback read of `metadata.maxvalue[0]` fails again, outside the
`try` block, so the function does not return the 0-max fallback. -/
theorem C9_get_display_propagates_cex :
    get_display (CziMetadata.mk (CziChannelInfo.mk []) [] []) 0 =
      Except.error "IndexError" := rfl

/-- C9 as amended: when `channel_index` is in range for both the clims
and the maximum-value list, `get_display` returns the rounded display
limits scaled by the channel maximum; when either read fails with an
index error it falls back to lower 0 and higher equal to
`metadata.maxvalue[channel_index]`, provided that fallback read is itself
in range - otherwise the index error escapes. -/
theorem C9_get_display_fallback (md : CziMetadata) (ci : Nat) :
    (∀ cl mv, md.channelinfo.clims[ci]? = some cl →
      md.maxvalue_list[ci]? = some mv →
      get_display md ci =
        Except.ok (npRound (cl.1 * mv), npRound (cl.2 * mv), mv)) ∧
    ((md.channelinfo.clims.length ≤ ci ∨ md.maxvalue_list.length ≤ ci) →
      (∀ mv, md.maxvalue[ci]? = some mv →
        get_display md ci = Except.ok (0, mv, mv)) ∧
      (md.maxvalue.length ≤ ci →
        get_display md ci = Except.error "IndexError")) := by
  constructor
  · intro cl mv h1 h2
    simp [get_display, h1, h2]
  · intro hoor
    constructor
    · intro mv hmv
      rcases hoor with h | h
      · have h1 : md.channelinfo.clims[ci]? = none := List.getElem?_eq_none h
        cases h2 : md.maxvalue_list[ci]? <;> simp [get_display, h1, h2, hmv]
      · have h2 : md.maxvalue_list[ci]? = none := List.getElem?_eq_none h
        cases h1 : md.channelinfo.clims[ci]? <;> simp [get_display, h1, h2, hmv]
    · intro hmax
      have h3 : md.maxvalue[ci]? = none := List.getElem?_eq_none hmax
      rcases hoor with h | h
      · have h1 : md.channelinfo.clims[ci]? = none := List.getElem?_eq_none h
        cases h2 : md.maxvalue_list[ci]? <;> simp [get_display, h1, h2, h3]
      · have h2 : md.maxvalue_list[ci]? = none := List.getElem?_eq_none h
        cases h1 : md.channelinfo.clims[ci]? <;> simp [get_display, h1, h2, h3]

/-- Witness for the amended C9: a channel with clims `(1/2, 3/4)` and
maximum 100 yields the rounded limits `(50, 75)`, and metadata whose only
populated list is `maxvalue` yields the 0-max fallback. -/
theorem C9_get_display_fallback_witness :
    get_display (CziMetadata.mk (CziChannelInfo.mk [(1/2, 3/4)]) [100] [100]) 0 =
      Except.ok (50, 75, 100) ∧
    get_display (CziMetadata.mk (CziChannelInfo.mk []) [] [50]) 0 =
      Except.ok (0, 50, 50) := by
  have h1 := (C9_get_display_fallback
    (CziMetadata.mk (CziChannelInfo.mk [(1/2, 3/4)]) [100] [100]) 0).1
    (1/2, 3/4) 100 rfl rfl
  have h2 := ((C9_get_display_fallback
    (CziMetadata.mk (CziChannelInfo.mk []) [] [50]) 0).2
    (Or.inl (by decide))).1 50 rfl
  refine ⟨?_, h2⟩
  rw [h1]
  norm_num [npRound, Int.floor_eq_iff]

end PyMicroTools
